import Mathlib

/-!
Verification of the transaction-submission dispatcher of the Quorum ledger
connector (`PluginLedgerConnectorQuorum` in
`packages/cactus-plugin-ledger-connector-quorum/.../plugin-ledger-connector-quorum.ts`).

The embedding models:
  * the request/response data model (`RunTransactionRequest`,
    `Web3SigningCredential`, `TransactionConfig`, `TransactionReceipt`);
  * the web3 environment as a record of pure functions (`Web3Env`); failures of
    the underlying web3 calls are modelled as `Except` results;
  * the receipt poller `pollForTxReceipt` as a loop over discrete time: one
    poll round-trip takes one clock tick, so the i-th fetch observes the chain
    at time i, and the `Date.now() >= startedAt + timeoutMs` check of the
    source becomes `timeoutMs <= i`, realised structurally through a
    `remaining = timeoutMs - i` counter;
  * every externally visible action (sign, broadcast, node-side send, receipt
    fetch, prometheus counter increment) as an `Event`, so that frame claims
    ("never signs", "increments the counter exactly once") are statable.

Thrown JavaScript errors are modelled by the `QuorumError` inductive; each
constructor corresponds to one `throw` site of the source.
-/

/-- The transaction config of a `RunTransactionRequest`.  All fields the source
may read are present; `fromAddr` and `toAddr` model the `from` and `to` fields
(both Lean keywords). -/
structure TransactionConfig where
  fromAddr : Option String
  toAddr : Option String
  data : Option String
  gas : Option Nat
  gasPrice : Option String
  value : Option String
  nonce : Option Nat
  rawTransaction : Option String
deriving DecidableEq, Repr

/-- The runtime tag of a signing credential.  The four named constructors are
the members of the generated `Web3SigningCredentialType` enum; `OTHER` models
any unrecognised runtime value reaching the dispatcher's `default` branch. -/
inductive Web3SigningCredentialType where
  | CACTUSKEYCHAINREF
  | GETHKEYCHAINPASSWORD
  | PRIVATEKEYHEX
  | NONE
  | OTHER (tag : String)
deriving DecidableEq, Repr

/-- The raw runtime string of a credential tag, used by the source only to
render the unsupported-type error message. -/
def Web3SigningCredentialType.raw : Web3SigningCredentialType → String
  | .CACTUSKEYCHAINREF => "CACTUS_KEYCHAIN_REF"
  | .GETHKEYCHAINPASSWORD => "GETH_KEYCHAIN_PASSWORD"
  | .PRIVATEKEYHEX => "PRIVATE_KEY_HEX"
  | .NONE => "NONE"
  | .OTHER tag => tag

/-- A signing credential as the duck-typed runtime object the TypeScript code
handles: the union of the fields of all four credential variants.  The source
casts and projects fields; which fields are meaningful is decided by `type`. -/
structure Web3SigningCredential where
  type : Web3SigningCredentialType
  ethAccount : String
  secret : String
  keychainEntryKey : String
  keychainId : String
deriving DecidableEq, Repr

/-- A mined-transaction receipt (the parts of web3's `TransactionReceipt` the
connector inspects or returns). -/
structure TransactionReceipt where
  status : Bool
  transactionHash : String
  blockNumber : Nat
  contractAddress : Option String
deriving DecidableEq, Repr

/-- The dispatcher's request. -/
structure RunTransactionRequest where
  transactionConfig : TransactionConfig
  web3SigningCredential : Web3SigningCredential
  timeoutMs : Option Nat
deriving DecidableEq, Repr

/-- The dispatcher's response. -/
structure RunTransactionResponse where
  transactionReceipt : TransactionReceipt
deriving DecidableEq, Repr

/-- One `throw` site of the connector, or a propagated web3/plugin rejection.
`pollTimeout` carries the data of the message `Timed out $Tms, polls=$n`. -/
inductive QuorumError where
  | unsupportedCredentialType (tag : String)
  | missingRawTransaction
  | signingFailed
  | broadcastFailed (web3Error : String)
  | remoteSigningFailed (inner : String)
  | keychainNotFound (keychainId : String)
  | keyNotFound (keychainEntryKey : String)
  | pollTimeout (timeoutMs : Nat) (polls : Nat)
deriving DecidableEq, Repr

/-- The text of the receipt poller's timeout error. -/
def pollTimeoutMessage (timeoutMs polls : Nat) : String :=
  "Timed out " ++ toString timeoutMs ++ "ms, polls=" ++ toString polls

/-- Rendering of an error as caught by the `catch` of `transactGethKeychain`
(the source interpolates `ex.stack` into its wrapper message). -/
def QuorumError.message : QuorumError → String
  | .unsupportedCredentialType tag => "Unrecognized Web3SigningCredentialType: " ++ tag
  | .missingRawTransaction => "Expected pre-signed raw transaction"
  | .signingFailed => "Failed to sign eth transaction"
  | .broadcastFailed web3Error => web3Error
  | .remoteSigningFailed inner =>
      "Failed to invoke web3.eth.personal.sendTransaction(). InnerException: " ++ inner
  | .keychainNotFound keychainId => "keychain for ID:" ++ keychainId
  | .keyNotFound keychainEntryKey => "no keychain entry for key:" ++ keychainEntryKey
  | .pollTimeout timeoutMs polls => pollTimeoutMessage timeoutMs polls

/-- An externally visible action of the connector.  `counterInc` is the
`prometheusExporter.addCurrentTransaction()` call. -/
inductive Event where
  | signTx (transactionConfig : TransactionConfig) (secret : String)
  | sendRaw (rawTransaction : String)
  | personalSend (transactionConfig : TransactionConfig) (secret : String)
  | getReceipt (txHash : String) (time : Nat)
  | counterInc
deriving DecidableEq, Repr

/-- Is the event a prometheus counter increment? -/
def Event.isCounterInc : Event → Bool
  | .counterInc => true
  | _ => false

/-- Is the event a receipt-fetch attempt? -/
def Event.isGetReceipt : Event → Bool
  | .getReceipt _ _ => true
  | _ => false

/-- Is the event a signing attempt? -/
def Event.isSignTx : Event → Bool
  | .signTx _ _ => true
  | _ => false

/-- Is the event a raw-transaction broadcast? -/
def Event.isSendRaw : Event → Bool
  | .sendRaw _ => true
  | _ => false

/-- The web3 node as seen by the connector: a record of pure functions.
`getTransactionReceipt` additionally takes the discrete time of the fetch, so
that receipts becoming available over time are expressible.  An `Except.error`
models a rejected promise / thrown web3 error. -/
structure Web3Env where
  signTransaction : TransactionConfig → String → Option String
  sendSignedTransaction : String → Except String TransactionReceipt
  personalSendTransaction : TransactionConfig → String → Except String String
  getTransactionReceipt : String → Nat → Option TransactionReceipt

/-- A keychain plugin of the registry: `get` returning `none` models the
plugin rejecting the lookup with its key-not-found error. -/
structure KeychainPlugin where
  keychainId : String
  get : String → Option String

/-- `pluginRegistry.findManyByAspect(KEYCHAIN).find(k => k.getKeychainId() ===
keychainId)`: the registry, restricted to its keychain-aspect plugins, is an
immutable list that the connector only searches. -/
def findKeychainPlugin (pluginRegistry : List KeychainPlugin)
    (keychainId : String) : Option KeychainPlugin :=
  pluginRegistry.find? (fun k => k.keychainId == keychainId)

/-- Prepend an event to the trace of a result. -/
def withEvent {α : Type} (e : Event) (r : α × List Event) : α × List Event :=
  (r.1, e :: r.2)

/-- The default of the `timeoutMs = 60000` parameter of `pollForTxReceipt`. -/
def defaultTimeoutMs : Nat := 60000

/-- The do-while loop of `pollForTxReceipt`.  Iteration at time `i` fetches the
receipt; on `null` the loop times out when `timeoutMs <= i`, maintained here as
`remaining = 0` with the invariant `i + remaining = timeoutMs`; otherwise it
retries at time `i + 1`.  `tries` counts completed fetches so far, and the
timeout error reports `tries + 1` as the source's `polls` count.  A receipt
found on the same iteration that would also time out is still returned, exactly
as in the source (`while (!timedOut && !txReceipt)` followed by
`if (!txReceipt) throw`). -/
def pollLoop (env : Web3Env) (txHash : String) (timeoutMs : Nat) :
    Nat → Nat → Nat → Except QuorumError TransactionReceipt × List Event
  | 0, i, tries =>
    match env.getTransactionReceipt txHash i with
    | some rc => (.ok rc, [.getReceipt txHash i])
    | none => (.error (.pollTimeout timeoutMs (tries + 1)), [.getReceipt txHash i])
  | r + 1, i, tries =>
    match env.getTransactionReceipt txHash i with
    | some rc => (.ok rc, [.getReceipt txHash i])
    | none =>
        withEvent (.getReceipt txHash i)
          (pollLoop env txHash timeoutMs r (i + 1) (tries + 1))

/-- `pollForTxReceipt(txHash, timeoutMs)`: run the polling loop from time 0. -/
def pollForTxReceipt (env : Web3Env) (txHash : String) (timeoutMs : Nat) :
    Except QuorumError TransactionReceipt × List Event :=
  pollLoop env txHash timeoutMs timeoutMs 0 0

/-- `transactSigned(rawTransaction)`: broadcast; on a web3 error propagate it,
otherwise increment the prometheus counter and return the receipt. -/
def transactSigned (env : Web3Env) (rawTransaction : String) :
    Except QuorumError RunTransactionResponse × List Event :=
  match env.sendSignedTransaction rawTransaction with
  | .error ex => (.error (.broadcastFailed ex), [.sendRaw rawTransaction])
  | .ok receipt =>
      (.ok ⟨receipt⟩, [.sendRaw rawTransaction, .counterInc])

/-- `transactPrivateKey(req)`: sign locally with the credential's secret; if
the signature's `rawTransaction` is blank fail, else hand off to
`transactSigned`. -/
def transactPrivateKey (env : Web3Env) (req : RunTransactionRequest) :
    Except QuorumError RunTransactionResponse × List Event :=
  match env.signTransaction req.transactionConfig req.web3SigningCredential.secret with
  | some rawTransaction =>
      withEvent (.signTx req.transactionConfig req.web3SigningCredential.secret)
        (transactSigned env rawTransaction)
  | none =>
      (.error .signingFailed,
        [.signTx req.transactionConfig req.web3SigningCredential.secret])

/-- `transactGethKeychain(txIn)`: node-side send with the keystore password,
then poll for the receipt with the DEFAULT timeout (the request's `timeoutMs`
is not forwarded).  The try/catch of the source wraps ANY failure of the block,
including the poller's timeout, into the generic sendTransaction failure. -/
def transactGethKeychain (env : Web3Env) (txIn : RunTransactionRequest) :
    Except QuorumError RunTransactionResponse × List Event :=
  match env.personalSendTransaction txIn.transactionConfig
      txIn.web3SigningCredential.secret with
  | .error ex =>
      (.error (.remoteSigningFailed ex),
        [.personalSend txIn.transactionConfig txIn.web3SigningCredential.secret])
  | .ok txHash =>
    match pollForTxReceipt env txHash defaultTimeoutMs with
    | (.ok transactionReceipt, evs) =>
        (.ok ⟨transactionReceipt⟩,
          .personalSend txIn.transactionConfig txIn.web3SigningCredential.secret :: evs)
    | (.error ex, evs) =>
        (.error (.remoteSigningFailed ex.message),
          .personalSend txIn.transactionConfig txIn.web3SigningCredential.secret :: evs)

/-- `transactCactusKeychainRef(req)`: look the keychain plugin up in the
registry (`Checks.truthy` throws when absent), resolve the private key through
the plugin's `get` (whose rejection propagates), and re-invoke
`transactPrivateKey` with a fresh `PRIVATEKEYHEX` credential; the recursive
request carries no `timeoutMs` and no keychain fields. -/
def transactCactusKeychainRef (env : Web3Env)
    (pluginRegistry : List KeychainPlugin) (req : RunTransactionRequest) :
    Except QuorumError RunTransactionResponse × List Event :=
  match findKeychainPlugin pluginRegistry req.web3SigningCredential.keychainId with
  | none => (.error (.keychainNotFound req.web3SigningCredential.keychainId), [])
  | some keychainPlugin =>
    match keychainPlugin.get req.web3SigningCredential.keychainEntryKey with
    | none => (.error (.keyNotFound req.web3SigningCredential.keychainEntryKey), [])
    | some privateKeyHex =>
        transactPrivateKey env
          { transactionConfig := req.transactionConfig,
            web3SigningCredential :=
              { type := .PRIVATEKEYHEX,
                ethAccount := req.web3SigningCredential.ethAccount,
                secret := privateKeyHex,
                keychainEntryKey := "",
                keychainId := "" },
            timeoutMs := none }

/-- The `NONE` branch of `transact`: require a truthy `rawTransaction` (absent
or the empty string is falsy in TypeScript) and hand off to `transactSigned`;
otherwise fail with the missing-raw-transaction error. -/
def preSignedPath (env : Web3Env) (req : RunTransactionRequest) :
    Except QuorumError RunTransactionResponse × List Event :=
  match req.transactionConfig.rawTransaction with
  | some rawTransaction =>
      if rawTransaction = "" then (.error .missingRawTransaction, [])
      else transactSigned env rawTransaction
  | none => (.error .missingRawTransaction, [])

/-- `transact(req)`: the dispatcher's switch on the credential's `type` tag. -/
def transact (env : Web3Env) (pluginRegistry : List KeychainPlugin)
    (req : RunTransactionRequest) :
    Except QuorumError RunTransactionResponse × List Event :=
  match req.web3SigningCredential.type with
  | .CACTUSKEYCHAINREF => transactCactusKeychainRef env pluginRegistry req
  | .GETHKEYCHAINPASSWORD => transactGethKeychain env req
  | .PRIVATEKEYHEX => transactPrivateKey env req
  | .NONE => preSignedPath env req
  | .OTHER tag => (.error (.unsupportedCredentialType tag), [])

/-- The strategy the dispatcher selects, as an abstract label. -/
inductive Strategy where
  | keychainIndirection
  | keystorePassword
  | privateKey
  | preSigned
  | unsupported
deriving DecidableEq, Repr

/-- The routing function of the dispatcher: which strategy a request is sent
to.  By definition it inspects only the credential's tag. -/
def routedStrategy (req : RunTransactionRequest) : Strategy :=
  match req.web3SigningCredential.type with
  | .CACTUSKEYCHAINREF => .keychainIndirection
  | .GETHKEYCHAINPASSWORD => .keystorePassword
  | .PRIVATEKEYHEX => .privateKey
  | .NONE => .preSigned
  | .OTHER _ => .unsupported

/-! ### Concrete sample data for witnesses and counterexamples -/

/-- A sample transaction config without a pre-signed raw transaction. -/
def sampleConfig : TransactionConfig :=
  { fromAddr := some "0x123", toAddr := some "0xabc", data := some "0xdd",
    gas := some 6721975, gasPrice := none, value := none, nonce := none,
    rawTransaction := none }

/-- A sample mined receipt. -/
def sampleReceipt : TransactionReceipt :=
  { status := true, transactionHash := "0xbeef", blockNumber := 7,
    contractAddress := none }

/-- A ledger on which everything succeeds and the receipt is available at
once. -/
def mineEnv : Web3Env :=
  { signTransaction := fun _ secret => some secret,
    sendSignedTransaction := fun _ => .ok sampleReceipt,
    personalSendTransaction := fun _ _ => .ok "0xhash",
    getTransactionReceipt := fun _ _ => some sampleReceipt }

/-- A ledger that accepts transactions but never makes a receipt available:
the synchronous-until-mined web3 send rejects with its own timeout error, the
node-side send returns a hash, and the receipt fetch always yields null. -/
def noReceiptEnv : Web3Env :=
  { signTransaction := fun _ secret => some secret,
    sendSignedTransaction := fun _ =>
      .error "Transaction was not mined within 750 seconds",
    personalSendTransaction := fun _ _ => .ok "0xhash",
    getTransactionReceipt := fun _ _ => none }

/-- A ledger on which the receipt becomes observable at the times strictly
after tick 1. -/
def availAfterOneEnv : Web3Env :=
  { signTransaction := fun _ secret => some secret,
    sendSignedTransaction := fun _ => .ok sampleReceipt,
    personalSendTransaction := fun _ _ => .ok "0xhash",
    getTransactionReceipt := fun _ j => if 1 < j then some sampleReceipt else none }

/-- A keychain plugin holding `0xdeadbeef` under the entry key `k1`. -/
def sampleKeychain : KeychainPlugin :=
  { keychainId := "kc1",
    get := fun k => if k = "k1" then some "0xdeadbeef" else none }

/-- A keychain plugin with no entries at all. -/
def emptyKeychain : KeychainPlugin :=
  { keychainId := "kc1", get := fun _ => none }

/-- A request with a `PRIVATEKEYHEX` credential and a 5000 ms timeout. -/
def privateKeyReq : RunTransactionRequest :=
  { transactionConfig := sampleConfig,
    web3SigningCredential :=
      { type := .PRIVATEKEYHEX, ethAccount := "0x123", secret := "0xdeadbeef",
        keychainEntryKey := "", keychainId := "" },
    timeoutMs := some 5000 }

/-- A request with a `GETHKEYCHAINPASSWORD` credential. -/
def gethReq : RunTransactionRequest :=
  { transactionConfig := sampleConfig,
    web3SigningCredential :=
      { type := .GETHKEYCHAINPASSWORD, ethAccount := "0x123",
        secret := "password", keychainEntryKey := "", keychainId := "" },
    timeoutMs := some 5000 }

/-- A request with a `NONE` credential and no raw transaction. -/
def noneReq : RunTransactionRequest :=
  { transactionConfig := sampleConfig,
    web3SigningCredential :=
      { type := .NONE, ethAccount := "", secret := "",
        keychainEntryKey := "", keychainId := "" },
    timeoutMs := some 5000 }

/-- A request with a `CACTUSKEYCHAINREF` credential pointing at `kc1, k1`. -/
def keychainRefReq : RunTransactionRequest :=
  { transactionConfig := sampleConfig,
    web3SigningCredential :=
      { type := .CACTUSKEYCHAINREF, ethAccount := "0x123", secret := "",
        keychainEntryKey := "k1", keychainId := "kc1" },
    timeoutMs := some 5000 }

/-- A request whose credential carries an unrecognised tag. -/
def otherTagReq : RunTransactionRequest :=
  { transactionConfig := sampleConfig,
    web3SigningCredential :=
      { type := .OTHER "FOO", ethAccount := "", secret := "",
        keychainEntryKey := "", keychainId := "" },
    timeoutMs := some 5000 }

/-! ### Helper lemmas about the polling loop -/

/-- If the receipt fetch yields `null` at every time up to `i + remaining`, the
loop exits with the timeout error, reporting one poll per visited time. -/
theorem pollLoop_none_fst (env : Web3Env) (txHash : String) (timeoutMs : Nat) :
    ∀ remaining i tries,
      (∀ j, j ≤ i + remaining → env.getTransactionReceipt txHash j = none) →
      (pollLoop env txHash timeoutMs remaining i tries).1 =
        .error (.pollTimeout timeoutMs (tries + remaining + 1)) := by
  intro remaining
  induction remaining with
  | zero =>
    intro i tries hfetch
    have h0 : env.getTransactionReceipt txHash i = none := hfetch i (by omega)
    simp [pollLoop, h0]
  | succ r ih =>
    intro i tries hfetch
    have h0 : env.getTransactionReceipt txHash i = none := hfetch i (by omega)
    have hrec := ih (i + 1) (tries + 1) (fun j hj => hfetch j (by omega))
    simp only [pollLoop, h0, withEvent]
    rw [hrec]
    have harith : tries + 1 + r + 1 = tries + (r + 1) + 1 := by omega
    rw [harith]

/-- If the receipt is observable exactly at the times strictly after `t`, and
the loop still has enough budget to reach time `t + 1`, it returns the
receipt. -/
theorem pollLoop_avail_fst (env : Web3Env) (txHash : String) (timeoutMs t : Nat)
    (rc : TransactionReceipt)
    (hav : ∀ j, env.getTransactionReceipt txHash j =
      if t < j then some rc else none) :
    ∀ remaining i tries, i ≤ t + 1 → t + 1 ≤ i + remaining →
      (pollLoop env txHash timeoutMs remaining i tries).1 = .ok rc := by
  intro remaining
  induction remaining with
  | zero =>
    intro i tries hi hir
    have hieq : i = t + 1 := by omega
    have h0 : env.getTransactionReceipt txHash i = some rc := by
      rw [hav i, hieq]; simp
    simp [pollLoop, h0]
  | succ r ih =>
    intro i tries hi hir
    by_cases hieq : i = t + 1
    · have h0 : env.getTransactionReceipt txHash i = some rc := by
        rw [hav i, hieq]; simp
      simp [pollLoop, h0]
    · have hit : i ≤ t := by omega
      have h0 : env.getTransactionReceipt txHash i = none := by
        rw [hav i]; simp; omega
      have hrec := ih (i + 1) (tries + 1) (by omega) (by omega)
      simp only [pollLoop, h0, withEvent]
      exact hrec

/-- Every event the polling loop emits is a receipt fetch. -/
theorem pollLoop_events_getReceipt (env : Web3Env) (txHash : String)
    (timeoutMs : Nat) :
    ∀ remaining i tries,
      ∀ e ∈ (pollLoop env txHash timeoutMs remaining i tries).2,
        Event.isGetReceipt e = true := by
  intro remaining
  induction remaining with
  | zero =>
    intro i tries e he
    cases h0 : env.getTransactionReceipt txHash i <;>
      simp [pollLoop, h0] at he <;> simp [he, Event.isGetReceipt]
  | succ r ih =>
    intro i tries e he
    cases h0 : env.getTransactionReceipt txHash i with
    | some rc =>
      simp [pollLoop, h0] at he
      simp [he, Event.isGetReceipt]
    | none =>
      simp only [pollLoop, h0, withEvent, List.mem_cons] at he
      rcases he with he | he
      · simp [he, Event.isGetReceipt]
      · exact ih (i + 1) (tries + 1) e he

/-- The polling loop always performs at least one receipt fetch. -/
theorem pollLoop_getReceipt_pos (env : Web3Env) (txHash : String)
    (timeoutMs : Nat) (remaining i tries : Nat) :
    1 ≤ ((pollLoop env txHash timeoutMs remaining i tries).2.countP
          (fun e => Event.isGetReceipt e)) := by
  cases remaining with
  | zero =>
    cases h0 : env.getTransactionReceipt txHash i <;>
      simp [pollLoop, h0, List.countP_cons, Event.isGetReceipt]
  | succ r =>
    cases h0 : env.getTransactionReceipt txHash i <;>
      simp [pollLoop, h0, withEvent, List.countP_cons, Event.isGetReceipt]

/-- The poll count reported by the timeout error exceeds the count of fetches
already performed when the loop was entered. -/
theorem pollLoop_timeout_tries (env : Web3Env) (txHash : String)
    (timeoutMs : Nat) :
    ∀ remaining i tries tms n,
      (pollLoop env txHash timeoutMs remaining i tries).1 =
        .error (.pollTimeout tms n) →
      tries + 1 ≤ n := by
  intro remaining
  induction remaining with
  | zero =>
    intro i tries tms n h
    cases h0 : env.getTransactionReceipt txHash i <;> simp [pollLoop, h0] at h
    omega
  | succ r ih =>
    intro i tries tms n h
    cases h0 : env.getTransactionReceipt txHash i with
    | some rc => simp [pollLoop, h0] at h
    | none =>
      simp only [pollLoop, h0, withEvent] at h
      have := ih (i + 1) (tries + 1) tms n h
      omega

/-! ### Dispatch helper lemmas -/

/-- `transact` on a `CACTUSKEYCHAINREF` tag is the keychain-indirection
strategy. -/
theorem transact_tag_cactus (env : Web3Env) (pluginRegistry : List KeychainPlugin)
    (req : RunTransactionRequest)
    (h : req.web3SigningCredential.type = .CACTUSKEYCHAINREF) :
    transact env pluginRegistry req = transactCactusKeychainRef env pluginRegistry req := by
  unfold transact; rw [h]

/-- `transact` on a `GETHKEYCHAINPASSWORD` tag is the keystore-password
strategy. -/
theorem transact_tag_geth (env : Web3Env) (pluginRegistry : List KeychainPlugin)
    (req : RunTransactionRequest)
    (h : req.web3SigningCredential.type = .GETHKEYCHAINPASSWORD) :
    transact env pluginRegistry req = transactGethKeychain env req := by
  unfold transact; rw [h]

/-- `transact` on a `PRIVATEKEYHEX` tag is the private-key strategy. -/
theorem transact_tag_privateKey (env : Web3Env) (pluginRegistry : List KeychainPlugin)
    (req : RunTransactionRequest)
    (h : req.web3SigningCredential.type = .PRIVATEKEYHEX) :
    transact env pluginRegistry req = transactPrivateKey env req := by
  unfold transact; rw [h]

/-- `transact` on a `NONE` tag is the pre-signed path. -/
theorem transact_tag_none (env : Web3Env) (pluginRegistry : List KeychainPlugin)
    (req : RunTransactionRequest)
    (h : req.web3SigningCredential.type = .NONE) :
    transact env pluginRegistry req = preSignedPath env req := by
  unfold transact; rw [h]

/-- `transact` on an unrecognised tag fails with the unsupported-type error
without any external action. -/
theorem transact_tag_other (env : Web3Env) (pluginRegistry : List KeychainPlugin)
    (req : RunTransactionRequest) (tag : String)
    (h : req.web3SigningCredential.type = .OTHER tag) :
    transact env pluginRegistry req = (.error (.unsupportedCredentialType tag), []) := by
  unfold transact; rw [h]

/-- When the registry lookup and the keychain `get` both succeed, the
keychain-indirection strategy is exactly the private-key strategy on the
resolved key. -/
theorem transactCactusKeychainRef_resolves (env : Web3Env)
    (pluginRegistry : List KeychainPlugin) (req : RunTransactionRequest)
    (keychainPlugin : KeychainPlugin) (privateKeyHex : String)
    (hfind : findKeychainPlugin pluginRegistry req.web3SigningCredential.keychainId =
      some keychainPlugin)
    (hget : keychainPlugin.get req.web3SigningCredential.keychainEntryKey =
      some privateKeyHex) :
    transactCactusKeychainRef env pluginRegistry req =
      transactPrivateKey env
        { transactionConfig := req.transactionConfig,
          web3SigningCredential :=
            { type := .PRIVATEKEYHEX,
              ethAccount := req.web3SigningCredential.ethAccount,
              secret := privateKeyHex,
              keychainEntryKey := "",
              keychainId := "" },
          timeoutMs := none } := by
  unfold transactCactusKeychainRef
  simp only [hfind, hget]

/-- The private-key strategy reads only the transaction config and the
credential's secret: all other request fields are irrelevant. -/
theorem transactPrivateKey_only_config_secret (env : Web3Env)
    (transactionConfig : TransactionConfig) (K : String)
    (ty1 ty2 : Web3SigningCredentialType) (ea1 ea2 k1 k2 id1 id2 : String)
    (t1 t2 : Option Nat) :
    transactPrivateKey env
      { transactionConfig := transactionConfig,
        web3SigningCredential :=
          { type := ty1, ethAccount := ea1, secret := K,
            keychainEntryKey := k1, keychainId := id1 },
        timeoutMs := t1 } =
    transactPrivateKey env
      { transactionConfig := transactionConfig,
        web3SigningCredential :=
          { type := ty2, ethAccount := ea2, secret := K,
            keychainEntryKey := k2, keychainId := id2 },
        timeoutMs := t2 } := rfl

/-! ### Claim theorems -/

/-- C1: the dispatcher `transact` selects its strategy purely from the
credential's type tag: `CACTUSKEYCHAINREF` routes to the keychain-indirection
strategy, `GETHKEYCHAINPASSWORD` to the keystore-password strategy,
`PRIVATEKEYHEX` to the private-key strategy, `NONE` to the pre-signed path,
and any other tag makes `transact` fail with the unsupported-credential-type
error; and the routing is a function of the tag alone, so no other field of
the request influences the choice. -/
theorem transact_routes_by_credential_type (env : Web3Env)
    (pluginRegistry : List KeychainPlugin) (req : RunTransactionRequest) :
    (req.web3SigningCredential.type = .CACTUSKEYCHAINREF →
      routedStrategy req = .keychainIndirection ∧
      transact env pluginRegistry req =
        transactCactusKeychainRef env pluginRegistry req) ∧
    (req.web3SigningCredential.type = .GETHKEYCHAINPASSWORD →
      routedStrategy req = .keystorePassword ∧
      transact env pluginRegistry req = transactGethKeychain env req) ∧
    (req.web3SigningCredential.type = .PRIVATEKEYHEX →
      routedStrategy req = .privateKey ∧
      transact env pluginRegistry req = transactPrivateKey env req) ∧
    (req.web3SigningCredential.type = .NONE →
      routedStrategy req = .preSigned ∧
      transact env pluginRegistry req = preSignedPath env req) ∧
    (∀ tag, req.web3SigningCredential.type = .OTHER tag →
      routedStrategy req = .unsupported ∧
      transact env pluginRegistry req =
        (.error (.unsupportedCredentialType tag), [])) ∧
    (∀ req2 : RunTransactionRequest,
      req.web3SigningCredential.type = req2.web3SigningCredential.type →
      routedStrategy req = routedStrategy req2) := by
  refine ⟨fun h => ⟨?_, transact_tag_cactus env pluginRegistry req h⟩,
    fun h => ⟨?_, transact_tag_geth env pluginRegistry req h⟩,
    fun h => ⟨?_, transact_tag_privateKey env pluginRegistry req h⟩,
    fun h => ⟨?_, transact_tag_none env pluginRegistry req h⟩,
    fun tag h => ⟨?_, transact_tag_other env pluginRegistry req tag h⟩,
    fun req2 h => ?_⟩ <;> simp [routedStrategy, h]

/-- Witness for C1 at the unrecognised tag `FOO`. -/
theorem transact_routes_by_credential_type_witness :
    transact mineEnv [] otherTagReq = (.error (.unsupportedCredentialType "FOO"), []) :=
  ((transact_routes_by_credential_type mineEnv [] otherTagReq).2.2.2.2.1 "FOO" rfl).2

/-- C2: if the node makes the receipt observable at the fetches strictly after
time `t` (one poll round-trip per time tick), then with budget `timeoutMs` the
poller returns the receipt when `t < timeoutMs`, and fails with the poll
timeout error when `t >= timeoutMs` - in particular the fetch that still saw
null at the deadline yields a timeout, with no look-ahead. -/
theorem pollForTxReceipt_eventually_succeeds_or_times_out (env : Web3Env)
    (txHash : String) (timeoutMs t : Nat) (rc : TransactionReceipt)
    (hav : ∀ j, env.getTransactionReceipt txHash j =
      if t < j then some rc else none) :
    (t < timeoutMs → (pollForTxReceipt env txHash timeoutMs).1 = .ok rc) ∧
    (timeoutMs ≤ t →
      (pollForTxReceipt env txHash timeoutMs).1 =
        .error (.pollTimeout timeoutMs (timeoutMs + 1))) := by
  constructor
  · intro h
    exact pollLoop_avail_fst env txHash timeoutMs t rc hav timeoutMs 0 0
      (by omega) (by omega)
  · intro h
    have hfetch : ∀ j, j ≤ 0 + timeoutMs →
        env.getTransactionReceipt txHash j = none := by
      intro j hj
      rw [hav j, if_neg (by omega)]
    have := pollLoop_none_fst env txHash timeoutMs timeoutMs 0 0 hfetch
    simpa [pollForTxReceipt] using this

/-- Witness for C2: a receipt available strictly after tick 1 with budget 5 is
returned. -/
theorem pollForTxReceipt_eventually_succeeds_or_times_out_witness :
    (pollForTxReceipt availAfterOneEnv "0xhash" 5).1 = .ok sampleReceipt :=
  (pollForTxReceipt_eventually_succeeds_or_times_out availAfterOneEnv "0xhash" 5 1
    sampleReceipt (fun j => rfl)).1 (by norm_num)

/-- C3: a `CACTUSKEYCHAINREF` request whose keychain entry resolves to the key
`K` produces the identical result as the same request with a `PRIVATEKEYHEX`
credential whose secret is `K` (same ethAccount, same transaction config),
whatever the other, irrelevant credential fields and timeouts are. -/
theorem transact_cactusKeychainRef_eq_privateKeyHex (env : Web3Env)
    (pluginRegistry : List KeychainPlugin)
    (transactionConfig : TransactionConfig)
    (ethAccount secret0 keychainEntryKey keychainId K a b : String)
    (t1 t2 : Option Nat) (keychainPlugin : KeychainPlugin)
    (hfind : findKeychainPlugin pluginRegistry keychainId = some keychainPlugin)
    (hget : keychainPlugin.get keychainEntryKey = some K) :
    transact env pluginRegistry
      { transactionConfig := transactionConfig,
        web3SigningCredential :=
          { type := .CACTUSKEYCHAINREF, ethAccount := ethAccount,
            secret := secret0, keychainEntryKey := keychainEntryKey,
            keychainId := keychainId },
        timeoutMs := t1 } =
    transact env pluginRegistry
      { transactionConfig := transactionConfig,
        web3SigningCredential :=
          { type := .PRIVATEKEYHEX, ethAccount := ethAccount, secret := K,
            keychainEntryKey := a, keychainId := b },
        timeoutMs := t2 } := by
  rw [transact_tag_cactus env pluginRegistry _ rfl,
    transact_tag_privateKey env pluginRegistry _ rfl,
    transactCactusKeychainRef_resolves env pluginRegistry _ keychainPlugin K
      hfind hget]
  exact transactPrivateKey_only_config_secret env transactionConfig K
    .PRIVATEKEYHEX .PRIVATEKEYHEX ethAccount ethAccount "" a "" b none t2

/-- Witness for C3 on the sample keychain. -/
theorem transact_cactusKeychainRef_eq_privateKeyHex_witness :
    transact mineEnv [sampleKeychain] keychainRefReq =
      transact mineEnv [sampleKeychain] privateKeyReq :=
  transact_cactusKeychainRef_eq_privateKeyHex mineEnv [sampleKeychain]
    sampleConfig "0x123" "" "k1" "kc1" "0xdeadbeef" "" ""
    (some 5000) (some 5000) sampleKeychain rfl rfl

/-- C5: a `NONE`-credential request without a raw transaction always fails
with the missing-raw-transaction error, whatever the other request fields, and
the empty trace shows no broadcast (nor any other external action) was
attempted. -/
theorem transact_none_missing_raw_transaction (env : Web3Env)
    (pluginRegistry : List KeychainPlugin) (req : RunTransactionRequest)
    (htype : req.web3SigningCredential.type = .NONE)
    (hraw : req.transactionConfig.rawTransaction = none) :
    transact env pluginRegistry req = (.error .missingRawTransaction, []) := by
  rw [transact_tag_none env pluginRegistry req htype]
  unfold preSignedPath
  rw [hraw]

/-- Witness for C5. -/
theorem transact_none_missing_raw_transaction_witness :
    transact mineEnv [] noneReq = (.error .missingRawTransaction, []) :=
  transact_none_missing_raw_transaction mineEnv [] noneReq rfl rfl

/-- C8: for every timeout budget, including 0, the poller performs at least
one receipt-fetch attempt before a timeout can be declared, and the poll count
reported by the timeout error is always at least 1. -/
theorem pollForTxReceipt_at_least_one_attempt (env : Web3Env) (txHash : String)
    (timeoutMs : Nat) :
    1 ≤ ((pollForTxReceipt env txHash timeoutMs).2.countP
          (fun e => Event.isGetReceipt e)) ∧
    (∀ tms n, (pollForTxReceipt env txHash timeoutMs).1 =
        .error (.pollTimeout tms n) → 1 ≤ n) := by
  constructor
  · exact pollLoop_getReceipt_pos env txHash timeoutMs timeoutMs 0 0
  · intro tms n h
    have := pollLoop_timeout_tries env txHash timeoutMs timeoutMs 0 0 tms n h
    omega

/-- Witness for C8 with `timeoutMs = 0`: the timeout error still reports one
poll. -/
theorem pollForTxReceipt_at_least_one_attempt_witness :
    1 ≤ ((pollForTxReceipt noReceiptEnv "0xhash" 0).2.countP
          (fun e => Event.isGetReceipt e)) ∧ 1 ≤ 1 :=
  ⟨(pollForTxReceipt_at_least_one_attempt noReceiptEnv "0xhash" 0).1,
   (pollForTxReceipt_at_least_one_attempt noReceiptEnv "0xhash" 0).2 0 1 rfl⟩

/-- C9: a `CACTUSKEYCHAINREF` request whose keychain plugin holds no entry
under the given key fails with the key-not-found error propagated from the
plugin; the empty trace shows no signing and no broadcast was attempted.  The
plugin registry is an immutable input of the embedding, consulted only through
`findKeychainPlugin`, so no registration, mutation or caching can occur. -/
theorem transact_cactusKeychainRef_keyNotFound_no_sign (env : Web3Env)
    (pluginRegistry : List KeychainPlugin) (req : RunTransactionRequest)
    (keychainPlugin : KeychainPlugin)
    (htype : req.web3SigningCredential.type = .CACTUSKEYCHAINREF)
    (hfind : findKeychainPlugin pluginRegistry
        req.web3SigningCredential.keychainId = some keychainPlugin)
    (hget : keychainPlugin.get req.web3SigningCredential.keychainEntryKey = none) :
    transact env pluginRegistry req =
      (.error (.keyNotFound req.web3SigningCredential.keychainEntryKey), []) := by
  rw [transact_tag_cactus env pluginRegistry req htype]
  unfold transactCactusKeychainRef
  simp only [hfind, hget]

/-- Witness for C9 on the empty keychain. -/
theorem transact_cactusKeychainRef_keyNotFound_no_sign_witness :
    transact mineEnv [emptyKeychain] keychainRefReq =
      (.error (.keyNotFound "k1"), []) :=
  transact_cactusKeychainRef_keyNotFound_no_sign mineEnv [emptyKeychain]
    keychainRefReq emptyKeychain rfl rfl rfl

/-- C10: two requests identical except for `timeoutMs` produce identical
results under `transact` whenever the credential tag is `PRIVATEKEYHEX`,
`NONE` or `CACTUSKEYCHAINREF`: none of these paths ever reads the request's
timeout. -/
theorem transact_timeoutMs_noninterference (env : Web3Env)
    (pluginRegistry : List KeychainPlugin) (req : RunTransactionRequest)
    (t1 t2 : Option Nat)
    (h : req.web3SigningCredential.type = .PRIVATEKEYHEX ∨
         req.web3SigningCredential.type = .NONE ∨
         req.web3SigningCredential.type = .CACTUSKEYCHAINREF) :
    transact env pluginRegistry { req with timeoutMs := t1 } =
    transact env pluginRegistry { req with timeoutMs := t2 } := by
  rcases h with h | h | h
  · rw [transact_tag_privateKey env pluginRegistry { req with timeoutMs := t1 } h,
      transact_tag_privateKey env pluginRegistry { req with timeoutMs := t2 } h]
    rfl
  · rw [transact_tag_none env pluginRegistry { req with timeoutMs := t1 } h,
      transact_tag_none env pluginRegistry { req with timeoutMs := t2 } h]
    rfl
  · rw [transact_tag_cactus env pluginRegistry { req with timeoutMs := t1 } h,
      transact_tag_cactus env pluginRegistry { req with timeoutMs := t2 } h]
    rfl

/-- Witness for C10 at two very different timeouts. -/
theorem transact_timeoutMs_noninterference_witness :
    transact mineEnv [] { privateKeyReq with timeoutMs := some 1 } =
    transact mineEnv [] { privateKeyReq with timeoutMs := some 999999 } :=
  transact_timeoutMs_noninterference mineEnv [] privateKeyReq
    (some 1) (some 999999) (Or.inl rfl)

/-! ### Helper lemmas for counter and error-wrapping facts -/

@[simp] theorem isCounterInc_signTx (c : TransactionConfig) (s : String) :
    Event.isCounterInc (.signTx c s) = false := rfl

@[simp] theorem isCounterInc_sendRaw (r : String) :
    Event.isCounterInc (.sendRaw r) = false := rfl

@[simp] theorem isCounterInc_personalSend (c : TransactionConfig) (s : String) :
    Event.isCounterInc (.personalSend c s) = false := rfl

@[simp] theorem isCounterInc_getReceipt (h : String) (t : Nat) :
    Event.isCounterInc (.getReceipt h t) = false := rfl

@[simp] theorem isCounterInc_counterInc :
    Event.isCounterInc .counterInc = true := rfl

@[simp] theorem isGetReceipt_signTx (c : TransactionConfig) (s : String) :
    Event.isGetReceipt (.signTx c s) = false := rfl

@[simp] theorem isGetReceipt_sendRaw (r : String) :
    Event.isGetReceipt (.sendRaw r) = false := rfl

@[simp] theorem isGetReceipt_personalSend (c : TransactionConfig) (s : String) :
    Event.isGetReceipt (.personalSend c s) = false := rfl

@[simp] theorem isGetReceipt_getReceipt (h : String) (t : Nat) :
    Event.isGetReceipt (.getReceipt h t) = true := rfl

@[simp] theorem isGetReceipt_counterInc :
    Event.isGetReceipt .counterInc = false := rfl

/-- A successful broadcast through `transactSigned` emits exactly one counter
increment. -/
theorem transactSigned_ok_counterInc (env : Web3Env) (rawTransaction : String)
    (resp : RunTransactionResponse) (evs : List Event)
    (h : transactSigned env rawTransaction = (.ok resp, evs)) :
    evs.countP (fun e => Event.isCounterInc e) = 1 := by
  unfold transactSigned at h
  cases hb : env.sendSignedTransaction rawTransaction with
  | error e => simp only [hb] at h; simp at h
  | ok rc =>
    simp only [hb, Prod.mk.injEq] at h
    obtain ⟨hres, hevs⟩ := h
    rw [← hevs]
    simp [List.countP_cons, Event.isCounterInc]

/-- A successful private-key submission emits exactly one counter
increment. -/
theorem transactPrivateKey_ok_counterInc (env : Web3Env)
    (req : RunTransactionRequest) (resp : RunTransactionResponse)
    (evs : List Event)
    (h : transactPrivateKey env req = (.ok resp, evs)) :
    evs.countP (fun e => Event.isCounterInc e) = 1 := by
  unfold transactPrivateKey at h
  cases hs : env.signTransaction req.transactionConfig
      req.web3SigningCredential.secret with
  | none => simp only [hs] at h; simp at h
  | some raw =>
    simp only [hs] at h
    rcases ht : transactSigned env raw with ⟨res, evs1⟩
    rw [ht] at h
    unfold withEvent at h
    rw [Prod.mk.injEq] at h
    obtain ⟨hres, hevs⟩ := h
    have hres2 : res = .ok resp := hres
    have hevs2 : Event.signTx req.transactionConfig
        req.web3SigningCredential.secret :: evs1 = evs := hevs
    rw [← hevs2, List.countP_cons]
    have hone : evs1.countP (fun e => Event.isCounterInc e) = 1 :=
      transactSigned_ok_counterInc env raw resp evs1 (by rw [ht, hres2])
    simp [hone]

/-- A successful pre-signed submission emits exactly one counter increment. -/
theorem preSignedPath_ok_counterInc (env : Web3Env)
    (req : RunTransactionRequest) (resp : RunTransactionResponse)
    (evs : List Event)
    (h : preSignedPath env req = (.ok resp, evs)) :
    evs.countP (fun e => Event.isCounterInc e) = 1 := by
  unfold preSignedPath at h
  cases hr : req.transactionConfig.rawTransaction with
  | none => simp only [hr] at h; simp at h
  | some raw =>
    simp only [hr] at h
    by_cases hraw : raw = ""
    · rw [if_pos hraw] at h; simp at h
    · rw [if_neg hraw] at h
      exact transactSigned_ok_counterInc env raw resp evs h

/-- A successful keychain-indirection submission emits exactly one counter
increment. -/
theorem transactCactusKeychainRef_ok_counterInc (env : Web3Env)
    (pluginRegistry : List KeychainPlugin) (req : RunTransactionRequest)
    (resp : RunTransactionResponse) (evs : List Event)
    (h : transactCactusKeychainRef env pluginRegistry req = (.ok resp, evs)) :
    evs.countP (fun e => Event.isCounterInc e) = 1 := by
  unfold transactCactusKeychainRef at h
  cases hf : findKeychainPlugin pluginRegistry
      req.web3SigningCredential.keychainId with
  | none => simp only [hf] at h; simp at h
  | some keychainPlugin =>
    simp only [hf] at h
    cases hg : keychainPlugin.get req.web3SigningCredential.keychainEntryKey with
    | none => simp only [hg] at h; simp at h
    | some privateKeyHex =>
      simp only [hg] at h
      exact transactPrivateKey_ok_counterInc env _ resp evs h

/-- A successful keystore-password submission emits no counter increment: the
geth path never reaches `transactSigned`. -/
theorem transactGethKeychain_ok_counterInc_zero (env : Web3Env)
    (req : RunTransactionRequest) (resp : RunTransactionResponse)
    (evs : List Event)
    (h : transactGethKeychain env req = (.ok resp, evs)) :
    evs.countP (fun e => Event.isCounterInc e) = 0 := by
  unfold transactGethKeychain at h
  cases hp : env.personalSendTransaction req.transactionConfig
      req.web3SigningCredential.secret with
  | error e => simp only [hp] at h; simp at h
  | ok txHash =>
    simp only [hp] at h
    rcases hpoll : pollForTxReceipt env txHash defaultTimeoutMs with ⟨res, evs1⟩
    rw [hpoll] at h
    cases res with
    | error e => simp at h
    | ok rc =>
      rw [Prod.mk.injEq] at h
      obtain ⟨hres, hevs⟩ := h
      rw [← hevs, List.countP_cons]
      have hzero : evs1.countP (fun e => Event.isCounterInc e) = 0 := by
        rw [List.countP_eq_zero]
        intro a ha
        have ha2 : a ∈ (pollForTxReceipt env txHash defaultTimeoutMs).2 := by
          rw [hpoll]; exact ha
        have hget := pollLoop_events_getReceipt env txHash defaultTimeoutMs
          defaultTimeoutMs 0 0 a ha2
        cases a <;> simp_all
      simp [hzero]

/-- On the geth path, when the node accepts the send but never yields a
receipt, the poller's timeout error is caught and re-thrown as the generic
sendTransaction failure: its `pollTimeout` kind is lost. -/
theorem transactGethKeychain_wraps_timeout (env : Web3Env)
    (req : RunTransactionRequest) (txHash : String)
    (hsend : env.personalSendTransaction req.transactionConfig
      req.web3SigningCredential.secret = .ok txHash)
    (hnone : ∀ j, j ≤ defaultTimeoutMs →
      env.getTransactionReceipt txHash j = none) :
    (transactGethKeychain env req).1 =
      .error (.remoteSigningFailed
        (pollTimeoutMessage defaultTimeoutMs (defaultTimeoutMs + 1))) := by
  have hpoll : (pollForTxReceipt env txHash defaultTimeoutMs).1 =
      .error (.pollTimeout defaultTimeoutMs (defaultTimeoutMs + 1)) := by
    have := pollLoop_none_fst env txHash defaultTimeoutMs defaultTimeoutMs 0 0
      (fun j hj => hnone j (by omega))
    simpa [pollForTxReceipt] using this
  unfold transactGethKeychain
  simp only [hsend]
  rcases hp : pollForTxReceipt env txHash defaultTimeoutMs with ⟨res, evs1⟩
  rw [hp] at hpoll
  have hres : res = .error (.pollTimeout defaultTimeoutMs (defaultTimeoutMs + 1)) :=
    hpoll
  subst hres
  rfl

/-- C4 counterexample: with a `PRIVATEKEYHEX` credential, `timeoutMs = 5000`,
and a ledger that accepts the signed transaction but never makes a receipt
available, `transact` surfaces the web3 send error propagated by
`transactSigned`, not a `pollTimeout`, and performs zero receipt-fetch
attempts: the request-supplied timeout never bounds any wait on this path. -/
theorem transact_privateKeyHex_timeout_counterexample :
    (transact noReceiptEnv [] privateKeyReq).1 =
      .error (.broadcastFailed "Transaction was not mined within 750 seconds") ∧
    (transact noReceiptEnv [] privateKeyReq).1 ≠
      .error (.pollTimeout 5000 1) ∧
    (transact noReceiptEnv [] privateKeyReq).2.countP
      (fun e => Event.isGetReceipt e) = 0 := by
  have h1 : (transact noReceiptEnv [] privateKeyReq).1 =
      .error (.broadcastFailed "Transaction was not mined within 750 seconds") :=
    rfl
  refine ⟨h1, ?_, by decide⟩
  rw [h1]
  simp

/-- C4 amended: on the `PRIVATEKEYHEX` path `transact` performs no receipt
polling and never reads `timeoutMs`: it either succeeds, fails with the
signing failure, or propagates the web3 send error as a broadcast failure; a
ledger that never provides a receipt therefore surfaces the web3 error, never
a `pollTimeout` carrying the request timeout. -/
theorem transact_privateKeyHex_never_pollTimeout (env : Web3Env)
    (pluginRegistry : List KeychainPlugin) (req : RunTransactionRequest)
    (htype : req.web3SigningCredential.type = .PRIVATEKEYHEX) :
    ((∃ r, (transact env pluginRegistry req).1 = .ok r) ∨
     (transact env pluginRegistry req).1 = .error .signingFailed ∨
     (∃ e, (transact env pluginRegistry req).1 = .error (.broadcastFailed e))) ∧
    (transact env pluginRegistry req).2.countP
      (fun e => Event.isGetReceipt e) = 0 := by
  rw [transact_tag_privateKey env pluginRegistry req htype]
  unfold transactPrivateKey
  cases hs : env.signTransaction req.transactionConfig
      req.web3SigningCredential.secret with
  | none => exact ⟨Or.inr (Or.inl rfl), by simp⟩
  | some raw =>
    dsimp only
    unfold transactSigned withEvent
    cases hb : env.sendSignedTransaction raw with
    | error e => exact ⟨Or.inr (Or.inr ⟨e, rfl⟩), by simp⟩
    | ok rc => exact ⟨Or.inl ⟨⟨rc⟩, rfl⟩, by simp⟩

/-- Witness for the amended C4 on the never-mining ledger. -/
theorem transact_privateKeyHex_never_pollTimeout_witness :
    ((∃ r, (transact noReceiptEnv [] privateKeyReq).1 = .ok r) ∨
     (transact noReceiptEnv [] privateKeyReq).1 = .error .signingFailed ∨
     (∃ e, (transact noReceiptEnv [] privateKeyReq).1 =
        .error (.broadcastFailed e))) ∧
    (transact noReceiptEnv [] privateKeyReq).2.countP
      (fun e => Event.isGetReceipt e) = 0 :=
  transact_privateKeyHex_never_pollTimeout noReceiptEnv [] privateKeyReq rfl

/-- C6 counterexample: a `GETHKEYCHAINPASSWORD` request against a node that
accepts the send but never yields a receipt makes the poller raise its timeout
inside the strategy, yet the error surfaced to `transact`'s caller is the
generic wrapped sendTransaction failure, not a `pollTimeout`: the poll
timeout's distinguishing kind is converted within the strategy. -/
theorem transact_gethKeychain_wraps_pollTimeout_counterexample :
    (transact noReceiptEnv [] gethReq).1 =
      .error (.remoteSigningFailed (pollTimeoutMessage 60000 60001)) ∧
    (transact noReceiptEnv [] gethReq).1 ≠
      .error (.pollTimeout 60000 60001) := by
  have h1 : (transact noReceiptEnv [] gethReq).1 =
      .error (.remoteSigningFailed (pollTimeoutMessage 60000 60001)) := by
    rw [transact_tag_geth noReceiptEnv [] gethReq rfl]
    have := transactGethKeychain_wraps_timeout noReceiptEnv gethReq "0xhash"
      rfl (fun _ _ => rfl)
    simpa [defaultTimeoutMs] using this
  refine ⟨h1, ?_⟩
  rw [h1]
  simp

/-- C6 amended: the dispatcher `transact` itself adds no error handling: every
failure a strategy raises propagates to the caller unchanged.  However the
keystore-password strategy's internal catch wraps any failure of its block -
including the receipt poller's timeout - into the generic sendTransaction
failure, so a poll timeout on that path loses its distinguishing kind before
reaching the dispatcher's caller. -/
theorem transact_propagates_strategy_errors (env : Web3Env)
    (pluginRegistry : List KeychainPlugin) (req : RunTransactionRequest) :
    (req.web3SigningCredential.type = .CACTUSKEYCHAINREF →
      transact env pluginRegistry req =
        transactCactusKeychainRef env pluginRegistry req) ∧
    (req.web3SigningCredential.type = .GETHKEYCHAINPASSWORD →
      transact env pluginRegistry req = transactGethKeychain env req) ∧
    (req.web3SigningCredential.type = .PRIVATEKEYHEX →
      transact env pluginRegistry req = transactPrivateKey env req) ∧
    (req.web3SigningCredential.type = .NONE →
      transact env pluginRegistry req = preSignedPath env req) ∧
    (∀ txHash, env.personalSendTransaction req.transactionConfig
        req.web3SigningCredential.secret = .ok txHash →
      (∀ j, j ≤ defaultTimeoutMs →
        env.getTransactionReceipt txHash j = none) →
      (transactGethKeychain env req).1 =
        .error (.remoteSigningFailed
          (pollTimeoutMessage defaultTimeoutMs (defaultTimeoutMs + 1)))) :=
  ⟨transact_tag_cactus env pluginRegistry req,
   transact_tag_geth env pluginRegistry req,
   transact_tag_privateKey env pluginRegistry req,
   transact_tag_none env pluginRegistry req,
   fun txHash hsend hnone =>
     transactGethKeychain_wraps_timeout env req txHash hsend hnone⟩

/-- Witness for the amended C6 on the never-mining ledger. -/
theorem transact_propagates_strategy_errors_witness :
    (transactGethKeychain noReceiptEnv gethReq).1 =
      .error (.remoteSigningFailed
        (pollTimeoutMessage defaultTimeoutMs (defaultTimeoutMs + 1))) :=
  (transact_propagates_strategy_errors noReceiptEnv [] gethReq).2.2.2.2
    "0xhash" rfl (fun _ _ => rfl)

/-- C7 counterexample: a successful `GETHKEYCHAINPASSWORD` submission reaches
the broadcast step (the node-side send) and returns a receipt, yet increments
the process-wide transaction counter zero times, not once. -/
theorem transact_gethKeychain_counter_not_incremented :
    (transact mineEnv [] gethReq).1 = .ok ⟨sampleReceipt⟩ ∧
    (transact mineEnv [] gethReq).2.countP
      (fun e => Event.isCounterInc e) = 0 :=
  ⟨rfl, by decide⟩

/-- C7 amended: on every successful submission the counter is incremented
exactly once on the `NONE`, `PRIVATEKEYHEX` and `CACTUSKEYCHAINREF` paths
(which all funnel through `transactSigned`), and zero times on the
`GETHKEYCHAINPASSWORD` path (which never reaches `transactSigned`).  The
counter is write-only telemetry: it appears in the trace only, never in the
result, so it cannot affect the response or control flow. -/
theorem transact_counter_increment_on_success (env : Web3Env)
    (pluginRegistry : List KeychainPlugin) (req : RunTransactionRequest)
    (resp : RunTransactionResponse) (evs : List Event)
    (hrun : transact env pluginRegistry req = (.ok resp, evs)) :
    ((req.web3SigningCredential.type = .PRIVATEKEYHEX ∨
      req.web3SigningCredential.type = .NONE ∨
      req.web3SigningCredential.type = .CACTUSKEYCHAINREF) →
      evs.countP (fun e => Event.isCounterInc e) = 1) ∧
    (req.web3SigningCredential.type = .GETHKEYCHAINPASSWORD →
      evs.countP (fun e => Event.isCounterInc e) = 0) := by
  constructor
  · rintro (h | h | h)
    · rw [transact_tag_privateKey env pluginRegistry req h] at hrun
      exact transactPrivateKey_ok_counterInc env req resp evs hrun
    · rw [transact_tag_none env pluginRegistry req h] at hrun
      exact preSignedPath_ok_counterInc env req resp evs hrun
    · rw [transact_tag_cactus env pluginRegistry req h] at hrun
      exact transactCactusKeychainRef_ok_counterInc env pluginRegistry req
        resp evs hrun
  · intro h
    rw [transact_tag_geth env pluginRegistry req h] at hrun
    exact transactGethKeychain_ok_counterInc_zero env req resp evs hrun

/-- Witness for the amended C7: a successful private-key submission increments
the counter exactly once. -/
theorem transact_counter_increment_on_success_witness :
    ([Event.signTx sampleConfig "0xdeadbeef",
      Event.sendRaw "0xdeadbeef", Event.counterInc].countP
        (fun e => Event.isCounterInc e)) = 1 :=
  (transact_counter_increment_on_success mineEnv [] privateKeyReq
    ⟨sampleReceipt⟩
    [Event.signTx sampleConfig "0xdeadbeef",
      Event.sendRaw "0xdeadbeef", Event.counterInc]
    rfl).1 (Or.inl rfl)
